import Mathlib

/-!
Shallow embedding of the MACRO ECG-classification repository, covering the
parts of the code that the verified properties below are about:

* `data_loader/ecg_data_set.py` — the `ECGDataset` class: record retrieval,
  positive-class weights, (inverse) class frequencies, the on-disk caching
  protocol and the record-name consistency check;
* `utils/util.py` — `inf_loop`, `fullprint`, `extract_target_names_for_PTB_XL`;
* `trainer/trainer.py` — the batch loop of `Trainer._train_epoch`;
* `layers/Old/BasicBlock1dWithNormWithLNBug.py` — the sequence-length
  arithmetic of the residual block.

Python strings are modelled through their character lists (all the string
operations used by the code — containment, splitting on a separator
character, lexicographic comparison by code point — are defined here
structurally so that they evaluate inside the kernel).  Machine floats of the
statistics are modelled as `Rat` (the code only forms exact quotients of
integers).  The file system touched by the caching protocol is modelled as an
association list from file names to file contents, passed and returned
explicitly.
-/

/-! ## String primitives (code-point semantics of the Python operations) -/

/-- Lexicographic comparison of character lists by code point; this is the
order Python `sorted` uses on `str`. -/
def charListLe : List Char → List Char → Bool
  | [], _ => true
  | _ :: _, [] => false
  | a :: as, b :: bs =>
    if a.toNat < b.toNat then true
    else if b.toNat < a.toNat then false
    else charListLe as bs

/-- Python string comparison `a <= b`. -/
def strLe (a b : String) : Bool := charListLe a.data b.data

/-- The comparison as a relation, for use with `List.insertionSort`. -/
def strLeProp (a b : String) : Prop := strLe a b = true

instance : DecidableRel strLeProp :=
  fun a b => inferInstanceAs (Decidable (strLe a b = true))

instance : IsTotal String strLeProp := by
  constructor
  intro a b
  unfold strLeProp strLe
  generalize a.data = as
  generalize b.data = bs
  induction as generalizing bs with
  | nil => left; rfl
  | cons x xs ih =>
    cases bs with
    | nil => right; rfl
    | cons y ys =>
      by_cases h1 : x.toNat < y.toNat
      · left; simp [charListLe, h1]
      · by_cases h2 : y.toNat < x.toNat
        · right; simp [charListLe, h1, h2]
        · cases ih ys with
          | inl h => left; simp [charListLe, h1, h2, h]
          | inr h => right; simp [charListLe, h1, h2, h]

instance : IsTrans String strLeProp := by
  constructor
  intro a b c
  unfold strLeProp strLe
  generalize a.data = as
  generalize b.data = bs
  generalize c.data = cs
  induction as generalizing bs cs with
  | nil => intro _ _; rfl
  | cons x xs ih =>
    cases bs with
    | nil => intro h; exact absurd h (by simp [charListLe])
    | cons y ys =>
      cases cs with
      | nil => intro _ h; exact absurd h (by simp [charListLe])
      | cons z zs =>
        intro h1 h2
        simp only [charListLe] at h1 h2 ⊢
        split at h1
        · rename_i hxy
          split
          · rfl
          · rename_i hzx
            split at h2
            · omega
            · rename_i hyz
              split at h2
              · exact absurd h2 (by simp)
              · omega
        · rename_i hxy
          split at h1
          · exact absurd h1 (by simp)
          · rename_i hyx
            split at h2
            · rename_i hyz
              split
              · rfl
              · omega
            · rename_i hyz
              split at h2
              · exact absurd h2 (by simp)
              · rename_i hzy
                split
                · rfl
                · split
                  · omega
                  · exact ih ys zs h1 h2

/-- Python `sorted` on a list of strings (stable sort, code-point order). -/
def sortStrings (l : List String) : List String := List.insertionSort strLeProp l

/-- Does `s` begin with `pat` (character lists)? -/
def charListBeginsWith : List Char → List Char → Bool
  | _, [] => true
  | [], _ :: _ => false
  | c :: cs, p :: ps => c == p && charListBeginsWith cs ps

/-- Contiguous-substring containment on character lists. -/
def charListContainsSub (s pat : List Char) : Bool :=
  match s with
  | [] => pat.isEmpty
  | _ :: rest => charListBeginsWith s pat || charListContainsSub rest pat

/-- Python `pat in s` for strings (contiguous substring, nonempty `pat`). -/
def strContains (s pat : String) : Bool := charListContainsSub s.data pat.data

/-- Python `s.endswith(pat)`; used only to state what a suffix check would be. -/
def strEndsWith (s pat : String) : Bool :=
  charListBeginsWith s.data.reverse pat.data.reverse

/-- Python `s.split(sep)` for a one-character separator, on character lists. -/
def splitOnChar (sep : Char) : List Char → List (List Char)
  | [] => [[]]
  | c :: rest =>
    let r := splitOnChar sep rest
    if c == sep then [] :: r
    else
      match r with
      | [] => [[c]]
      | h :: t => (c :: h) :: t

/-- Python `s.split(sep)` for a one-character separator. -/
def splitStr (sep : Char) (s : String) : List String :=
  (splitOnChar sep s.data).map String.mk

/-! ## Column sums and per-class counts (the `pd.DataFrame(classes).sum()` of
`ecg_data_set.py`) -/

/-- Componentwise addition of two rows, the shorter one padded with zeros
(rows of one dataset all have the same length, so the padding is never
exercised there). -/
def vecAdd : List Nat → List Nat → List Nat
  | [], ys => ys
  | xs, [] => xs
  | x :: xs, y :: ys => (x + y) :: vecAdd xs ys

/-- Column sums of a list of rows: `pd.DataFrame(rows).sum()`.  For an empty
list of rows the result is the empty list, exactly as the pandas sum of an
empty frame is an empty series. -/
def colSum (rows : List (List Nat)) : List Nat := rows.foldr vecAdd []

/-- Sum of a list of naturals (`series.sum()`). -/
def listSum (l : List Nat) : Nat := l.foldr (· + ·) 0

/-- Number of rows whose entry at column `c` is `1`: the number of records
whose one-hot vector has class `c` set. -/
def positiveCount (rows : List (List Nat)) (c : Nat) : Nat :=
  rows.countP (fun r => r[c]? == some 1)

/-! ## The ECG dataset (`data_loader/ecg_data_set.py`) -/

/-- One preprocessed record as unpickled from disk: its file name, the
`classes_encoded` list of the metadata and the values of the
`classes_one_hot` series.  The waveform table is never inspected by the
functions modelled here and is omitted. -/
structure ECGRecord where
  name : String
  classes_encoded : List Nat
  classes_one_hot : List Nat
deriving DecidableEq

/-- The dataset: the retained record files (in order) and the class-label set
fixed at construction from the first record (`classes_one_hot.index.values`). -/
structure ECGDataset where
  records : List ECGRecord
  class_labels : List Nat
deriving DecidableEq

/-- The fields of the 5-tuple returned by `ECGDataset.__getitem__` that the
statistics functions consume (the float-cast signal table and the textual
rendering of `classes_encoded` are not used by them). -/
structure ItemTuple where
  first_class_encoded : Nat
  classes_one_hot : List Nat
  record_name : String
deriving DecidableEq

/-- `ECGDataset.__getitem__`: out-of-range indices raise, the record must not
reference a class label outside the dataset label set (assertion), and
`classes_encoded[0]` raises on an empty label list. -/
def ECGDataset.getItem (d : ECGDataset) (idx : Nat) : Option ItemTuple :=
  match d.records[idx]? with
  | none => none
  | some r =>
    if r.classes_encoded.all (fun label => d.class_labels.contains label) then
      match r.classes_encoded with
      | [] => none
      | firstLabel :: _ => some ⟨firstLabel, r.classes_one_hot, r.name⟩
    else none

/-- The `for idx in idx_list: ... self.__getitem__(idx)` loops of
`get_ml_pos_weights`, `get_class_frequency` and
`_consistency_check_data_split`; any failing retrieval aborts the call. -/
def collectItems (d : ECGDataset) : List Nat → Option (List ItemTuple)
  | [] => some []
  | idx :: rest =>
    match d.getItem idx, collectItems d rest with
    | some it, some its => some (it :: its)
    | _, _ => none

/-- The one-hot rows gathered by the statistics loops. -/
def oneHotRows (items : List ItemTuple) : List (List Nat) :=
  items.map (·.classes_one_hot)

/-- The record names gathered by the statistics loops. -/
def itemNames (items : List ItemTuple) : List String :=
  items.map (·.record_name)

/-- The single-label reduction of `get_class_frequency`:
`classes_one_hot[:] = 0; classes_one_hot[first_class_encoded] = 1` (a numpy
store at an out-of-range position raises). -/
def reduceToFirst (first : Nat) (oneHot : List Nat) : Option (List Nat) :=
  if first < oneHot.length then
    some ((List.range oneHot.length).map (fun i => if i = first then 1 else 0))
  else none

/-- The rows summed by `get_class_frequency`: the full one-hot vectors in
multi-label mode, the reduced vectors in single-label mode. -/
def slRows (multi_label_training : Bool) (items : List ItemTuple) :
    Option (List (List Nat)) :=
  if multi_label_training then some (oneHotRows items)
  else items.mapM (fun it => reduceToFirst it.first_class_encoded it.classes_one_hot)

/-- The per-class ratios `(N - num_pos) / num_pos` of `get_ml_pos_weights`. -/
def posWeightVals (N : Nat) (freqs : List Nat) : List Rat :=
  freqs.map (fun p : Nat => ((N : Rat) - (p : Rat)) / (p : Rat))

/-- The class frequencies as the stored/returned numeric values. -/
def natsToRats (l : List Nat) : List Rat := l.map (fun n : Nat => (n : Rat))

/-- The inverse class frequencies `class_freqs.sum() / x` of
`get_class_frequency`. -/
def invFreqVals (freqs : List Nat) : List Rat :=
  freqs.map (fun x : Nat => ((listSum freqs : Nat) : Rat) / (x : Rat))

/-! ## The cache files under `data_loader/log/` -/

/-- Contents of the cache artifacts: the record-name manifests
(`Record_names_<mode>_<suffix>.txt`, one sorted name per line), the pickled
pos-weight table (its `ratio_neg_to_pos` column) and the pickled
class-frequency table (its `Class_freq` and `Inverse_class_freq` columns). -/
inductive FileContent
  | manifest (lines : List String)
  | posWeightsDf (ratios : List Rat)
  | classFreqsDf (freqs invFreqs : List Rat)
deriving DecidableEq

/-- The directory `data_loader/log/` as an association list from file name to
content. -/
structure FS where
  files : List (String × FileContent)
deriving DecidableEq

/-- Look a file up by name. -/
def FS.lookup (fs : FS) (name : String) : Option FileContent :=
  go fs.files
where
  go : List (String × FileContent) → Option FileContent
    | [] => none
    | (n, c) :: rest => if n = name then some c else go rest

/-- Create or overwrite a file. -/
def FS.write (fs : FS) (name : String) (c : FileContent) : FS :=
  ⟨(name, c) :: fs.files.filter (fun p => !(p.1 == name))⟩

/-- Python `str(mode)` inside the f-strings building the file names:
`None` renders as the literal string `"None"`. -/
def pyStr : Option String → String
  | some m => m
  | none => "None"

/-- The cache-key suffix of `get_ml_pos_weights` / `get_class_frequency`:
the second `/`-segment of the input directory (taken relative to the project
root) names the dataset family; for a family other than `"CinC_CPSC"` the
first `_`-token of the third segment is appended.  Missing segments raise
(Python list indexing). -/
def cacheSuffix (input_dir : String) : Option String :=
  match (splitStr '/' input_dir)[1]? with
  | none => none
  | some dataset =>
    if dataset = "CinC_CPSC" then some dataset
    else
      match (splitStr '/' input_dir)[2]? with
      | none => none
      | some seg => some (dataset ++ "_" ++ ((splitStr '_' seg).headD ""))

/-- The silent `"test"`-to-`"valid"` downgrade at the top of both statistics
functions: applied when `mode == "test"` but the input directory does not
contain `"test"`. -/
def effectiveMode (input_dir : String) (mode : Option String) : Option String :=
  if mode = some "test" ∧ strContains input_dir "test" = false then some "valid"
  else mode

/-- File name `pos_weights_ml_<mode>_<suffix>.p`. -/
def posWeightsFileName (mode : Option String) (suffix : String) : String :=
  "pos_weights_ml_" ++ pyStr mode ++ "_" ++ suffix ++ ".p"

/-- File name `class_freqs_ml_<mode>_<suffix>.p` or
`class_freqs_sl_<mode>_<suffix>.p`. -/
def classFreqsFileName (multi_label_training : Bool) (mode : Option String)
    (suffix : String) : String :=
  (if multi_label_training then "class_freqs_ml_" else "class_freqs_sl_")
    ++ pyStr mode ++ "_" ++ suffix ++ ".p"

/-- File name `Record_names_<mode>_<suffix>.txt` of a record-name manifest
(`suffix` here already carries the `pos_weights_` or `class_freqs_` part). -/
def manifestFileName (mode : Option String) (suffix : String) : String :=
  "Record_names_" ++ pyStr mode ++ "_" ++ suffix ++ ".txt"

/-- `ECGDataset._consistency_check_data_split`: re-derives the record names of
`idx_list` and compares them, after sorting both sides, against the lines of
the persisted manifest.  A missing manifest raises a file-not-found error;
a mismatch of the sorted lists is the fatal assertion
`"Data Split Error! Check this again!"`. -/
def ECGDataset.consistencyCheckDataSplit (d : ECGDataset) (fs : FS)
    (idx_list : List Nat) (mode : Option String) (suffix : String) :
    Except String Unit :=
  match fs.lookup (manifestFileName mode suffix) with
  | some (FileContent.manifest records_for_mode) =>
    match collectItems d idx_list with
    | none => Except.error "record retrieval failed"
    | some items =>
      if sortStrings (itemNames items) = sortStrings records_for_mode then
        Except.ok ()
      else Except.error "Data Split Error! Check this again!"
  | _ => Except.error "FileNotFoundError: missing record-name manifest"

/-- `ECGDataset.get_ml_pos_weights(idx_list, mode, cross_valid_active)`.
The directory of cache files is threaded explicitly; the result is the
returned `ratio_neg_to_pos` array (or the raised error) together with the
directory after the call. -/
def ECGDataset.get_ml_pos_weights (d : ECGDataset) (input_dir : String)
    (fs : FS) (idx_list : List Nat) (mode : Option String)
    (cross_valid_active : Bool) : Except String (List Rat) × FS :=
  let mode := effectiveMode input_dir mode
  match cacheSuffix input_dir with
  | none => (Except.error "IndexError: list index out of range", fs)
  | some suffix =>
    let file_name := posWeightsFileName mode suffix
    if cross_valid_active = false ∧ (fs.lookup file_name).isSome = true then
      match d.consistencyCheckDataSplit fs idx_list mode ("pos_weights_" ++ suffix) with
      | Except.error e => (Except.error e, fs)
      | Except.ok _ =>
        match fs.lookup file_name with
        | some (FileContent.posWeightsDf ratios) => (Except.ok ratios, fs)
        | _ => (Except.error "UnpicklingError: unexpected cache content", fs)
    else
      match collectItems d idx_list with
      | none => (Except.error "record retrieval failed", fs)
      | some items =>
        let fs1 := if mode.isSome = true ∧ cross_valid_active = false then
            fs.write (manifestFileName mode ("pos_weights_" ++ suffix))
              (FileContent.manifest (sortStrings (itemNames items)))
          else fs
        let class_freqs := colSum (oneHotRows items)
        if class_freqs.contains 0 = true then
          (Except.error "Each class should occur at least ones", fs1)
        else
          if class_freqs.isEmpty = true then
            (Except.error
              "ValueError: Length of values (0) does not match length of index (1)",
              fs1)
          else
            let ratios := posWeightVals idx_list.length class_freqs
            let fs2 := if mode.isSome = true ∧ cross_valid_active = false then
                fs1.write file_name (FileContent.posWeightsDf ratios)
              else fs1
            (Except.ok ratios, fs2)

/-- `ECGDataset.get_class_frequency(idx_list, multi_label_training, mode,
inverse, cross_valid_active)`, modelled like `get_ml_pos_weights`. -/
def ECGDataset.get_class_frequency (d : ECGDataset) (input_dir : String)
    (fs : FS) (idx_list : List Nat) (multi_label_training : Bool)
    (mode : Option String) (inverse : Bool) (cross_valid_active : Bool) :
    Except String (List Rat) × FS :=
  let mode := effectiveMode input_dir mode
  match cacheSuffix input_dir with
  | none => (Except.error "IndexError: list index out of range", fs)
  | some suffix =>
    let file_name := classFreqsFileName multi_label_training mode suffix
    if cross_valid_active = false ∧ (fs.lookup file_name).isSome = true then
      match d.consistencyCheckDataSplit fs idx_list mode ("class_freqs_" ++ suffix) with
      | Except.error e => (Except.error e, fs)
      | Except.ok _ =>
        match fs.lookup file_name with
        | some (FileContent.classFreqsDf freqs invFreqs) =>
          (Except.ok (if inverse then invFreqs else freqs), fs)
        | _ => (Except.error "UnpicklingError: unexpected cache content", fs)
    else
      match collectItems d idx_list with
      | none => (Except.error "record retrieval failed", fs)
      | some items =>
        match slRows multi_label_training items with
        | none => (Except.error "IndexError: class index out of range", fs)
        | some rows =>
          let fs1 := if mode.isSome = true ∧ cross_valid_active = false then
              fs.write (manifestFileName mode ("class_freqs_" ++ suffix))
                (FileContent.manifest (sortStrings (itemNames items)))
            else fs
          let class_freqs := colSum rows
          if class_freqs.contains 0 = true then
            (Except.error "Each class should occur at least ones", fs1)
          else
            let freqs := natsToRats class_freqs
            let inverse_class_freqs := invFreqVals class_freqs
            let fs2 := if mode.isSome = true ∧ cross_valid_active = false then
                fs1.write file_name (FileContent.classFreqsDf freqs inverse_class_freqs)
              else fs1
            (Except.ok (if inverse then inverse_class_freqs else freqs), fs2)

/-- `ECGDataset.get_inverse_class_frequency`: the `inverse=True` wrapper. -/
def ECGDataset.get_inverse_class_frequency (d : ECGDataset) (input_dir : String)
    (fs : FS) (idx_list : List Nat) (multi_label_training : Bool)
    (mode : Option String) (cross_valid_active : Bool) :
    Except String (List Rat) × FS :=
  d.get_class_frequency input_dir fs idx_list multi_label_training mode true
    cross_valid_active

/-- The record-list construction of `ECGDataset.__init__`: the directory
listing is sorted and every file whose name does not contain `".pk"` is
skipped. -/
def initRecords (listing : List String) : List String :=
  (sortStrings listing).filter (fun f => strContains f ".pk")

/-! ## `utils/util.py` -/

/-- Concatenation of `k` copies of the loader contents: the first `k` rounds
of `for loader in repeat(data_loader): yield from loader`. -/
def repeatedLoader (l : List α) : Nat → List α
  | 0 => []
  | k + 1 => l ++ repeatedLoader l k

/-- The `n`-th item yielded by `inf_loop(data_loader)` (the item lies within
the first `n + 1` rounds whenever the loader is nonempty). -/
def infLoopItem (l : List α) (n : Nat) : Option α :=
  (repeatedLoader l (n + 1))[n]?

/-- The numpy print-option `threshold`: a finite value or `numpy.inf`. -/
inductive NpThreshold
  | finite (n : Nat)
  | inf
deriving DecidableEq

/-- The global numpy printing configuration, reduced to the one option
`fullprint` touches. -/
structure NpPrintOptions where
  threshold : NpThreshold
deriving DecidableEq

/-- `utils.util.fullprint`: saves the printing configuration, sets
`threshold=numpy.inf`, runs `pprint`, and reinstates the saved configuration.
Whether `pprint` itself raises is outside the function and is therefore a
parameter; an exception propagates from the point where it is raised.
Returned are the outcome and the global configuration after the call. -/
def fullprint (pprintSucceeds : Bool) (opts : NpPrintOptions) :
    Except String Unit × NpPrintOptions :=
  let opt := opts
  let duringPrint : NpPrintOptions := { opt with threshold := NpThreshold.inf }
  if pprintSucceeds then (Except.ok (), opt)
  else (Except.error "pprint raised", duringPrint)

/-- The 71 labels of the `all` task of PTB-XL. -/
def ptbxlLabelsAll : List String :=
  ["1AVB", "2AVB", "3AVB", "ABQRS", "AFIB", "AFLT", "ALMI", "AMI",
   "ANEUR", "ASMI", "BIGU", "CLBBB", "CRBBB", "DIG", "EL", "HVOLT",
   "ILBBB", "ILMI", "IMI", "INJAL", "INJAS", "INJIL", "INJIN",
   "INJLA", "INVT", "IPLMI", "IPMI", "IRBBB", "ISCAL", "ISCAN",
   "ISCAS", "ISCIL", "ISCIN", "ISCLA", "ISC_", "IVCD", "LAFB",
   "LAO/LAE", "LMI", "LNGQT", "LOWT", "LPFB", "LPR", "LVH", "LVOLT",
   "NDT", "NORM", "NST_", "NT_", "PAC", "PACE", "PMI", "PRC(S)",
   "PSVT", "PVC", "QWAVE", "RAO/RAE", "RVH", "SARRH", "SBRAD",
   "SEHYP", "SR", "STACH", "STD_", "STE_", "SVARR", "SVTAC", "TAB_",
   "TRIGU", "VCLVH", "WPW"]

/-- The 44 labels of the `diag` task of PTB-XL. -/
def ptbxlLabelsDiag : List String :=
  ["1AVB", "2AVB", "3AVB", "ALMI", "AMI", "ANEUR", "ASMI", "CLBBB",
   "CRBBB", "DIG", "EL", "ILBBB", "ILMI", "IMI", "INJAL", "INJAS",
   "INJIL", "INJIN", "INJLA", "IPLMI", "IPMI", "IRBBB", "ISCAL",
   "ISCAN", "ISCAS", "ISCIL", "ISCIN", "ISCLA", "ISC_", "IVCD",
   "LAFB", "LAO/LAE", "LMI", "LNGQT", "LPFB", "LVH", "NDT", "NORM",
   "NST_", "PMI", "RAO/RAE", "RVH", "SEHYP", "WPW"]

/-- The 19 labels of the `form` task of PTB-XL. -/
def ptbxlLabelsForm : List String :=
  ["ABQRS", "DIG", "HVOLT", "INVT", "LNGQT", "LOWT", "LPR", "LVOLT",
   "NDT", "NST_", "NT_", "PAC", "PRC(S)", "PVC", "QWAVE", "STD_",
   "STE_", "TAB_", "VCLVH"]

/-- The 12 labels of the `rhythm` task of PTB-XL. -/
def ptbxlLabelsRhythm : List String :=
  ["AFIB", "AFLT", "BIGU", "PACE", "PSVT", "SARRH", "SBRAD", "SR",
   "STACH", "SVARR", "SVTAC", "TRIGU"]

/-- The 23 labels of the `subdiag` task of PTB-XL. -/
def ptbxlLabelsSubdiag : List String :=
  ["AMI", "CLBBB", "CRBBB", "ILBBB", "IMI", "IRBBB", "ISCA", "ISCI",
   "ISC_", "IVCD", "LAFB/LPFB", "LAO/LAE", "LMI", "LVH", "NORM",
   "NST_", "PMI", "RAO/RAE", "RVH", "SEHYP", "STTC", "WPW", "_AVB"]

/-- The 5 labels of the `superdiag` task of PTB-XL. -/
def ptbxlLabelsSuperdiag : List String :=
  ["CD", "HYP", "MI", "NORM", "STTC"]

/-- `utils.util.extract_target_names_for_PTB_XL`: asserts `"PTB_XL"` occurs in
the path, reads the taxonomy tag as the first `_`-token of the third
`/`-segment, and dispatches on it; an unknown tag raises `ValueError`. -/
def extract_target_names_for_PTB_XL (data_dir : String) :
    Except String (List String) :=
  if strContains data_dir "PTB_XL" = false then
    Except.error "AssertionError: This method is intended for PTB-XL only!"
  else
    match (splitStr '/' data_dir)[2]? with
    | none => Except.error "IndexError: list index out of range"
    | some seg =>
      let ctype := (splitStr '_' seg).headD ""
      if ctype = "all" then Except.ok ptbxlLabelsAll
      else if ctype = "diag" then Except.ok ptbxlLabelsDiag
      else if ctype = "form" then Except.ok ptbxlLabelsForm
      else if ctype = "rhythm" then Except.ok ptbxlLabelsRhythm
      else if ctype = "subdiag" then Except.ok ptbxlLabelsSubdiag
      else if ctype = "superdiag" then Except.ok ptbxlLabelsSuperdiag
      else Except.error "ValueError: Data Dir does not match any known Ctype"

/-! ## The batch loop of `Trainer._train_epoch` (`trainer/trainer.py`) -/

/-- The `for batch_idx, batch in enumerate(self.data_loader)` loop of
`_train_epoch`, recorded as the list of batch indices that get fully
processed (forward, loss, backward, optimizer step, metric updates).  The
loop ends when the loader is exhausted, or breaks after processing the batch
whose index equals `len_epoch`.  `fuel` bounds how many iterations are
unrolled; any `fuel` large enough to contain the break yields the full run. -/
def trainLoop (loader : Nat → Option α) (len_epoch : Nat) :
    Nat → Nat → List Nat
  | 0, _ => []
  | fuel + 1, batch_idx =>
    match loader batch_idx with
    | none => []
    | some _ =>
      batch_idx ::
        (if batch_idx = len_epoch then []
         else trainLoop loader len_epoch fuel (batch_idx + 1))

/-! ## The residual block (`layers/Old/BasicBlock1dWithNormWithLNBug.py`),
modelled through its effect on the time-axis length -/

/-- Modelled from the spec: `layers/LayerUtils.py` is not part of the shown
sources; per the specification the stride-one same padding for an odd kernel
is `kernel_size // 2`, which is also what the in-source comment `# k//2`
records for this call with `dilation=1`. -/
def calc_same_padding_for_stride_one (dilation kernel_size : Nat) : Nat :=
  kernel_size / 2

/-- Output length of `nn.Conv1d` (and of the pooling layers, which use the
same formula) without internal padding; an input shorter than the kernel
raises. -/
def convOutLen (len kernel stride : Nat) : Option Nat :=
  if kernel ≤ len then some ((len - kernel) / stride + 1) else none

/-- `nn.ConstantPad1d((0, 1), 0)`: the one-sided trailing zero. -/
def oneSidedPadLen (len : Nat) : Nat := len + 1

/-- `nn.ConstantPad1d((p, p), 0)`: symmetric padding. -/
def symPadLen (p len : Nat) : Nat := len + 2 * p

/-- The downsampling strategy of the skip path. -/
inductive DownSampleKind
  | conv
  | max_pool
  | avg_pool
deriving DecidableEq

/-- The constructor parameters of `BasicBlock1dWithNorm` that the time-axis
length depends on (the normalization choices and the dropout probability do
not change the length). -/
structure BasicBlock1dWithNorm where
  in_channels : Nat
  out_channels : Nat
  mid_kernels_size : Nat
  last_kernel_size : Nat
  stride : Nat
  down_sample : DownSampleKind
  skips_active : Bool
deriving DecidableEq

/-- The `assert stride == 1 or stride == 2` of `__init__`. -/
def BasicBlock1dWithNorm.initOk (b : BasicBlock1dWithNorm) : Bool :=
  b.stride == 1 || b.stride == 2

/-- The padding applied before `conv1` and `conv2`: for an even mid kernel
the one-sided trailing zero followed by symmetric `(k - 1) // 2`, for an odd
one symmetric `k // 2`. -/
def BasicBlock1dWithNorm.midPaddedLen (b : BasicBlock1dWithNorm) (len : Nat) :
    Nat :=
  if b.mid_kernels_size % 2 = 0 then
    symPadLen ((b.mid_kernels_size - 1) / 2) (oneSidedPadLen len)
  else symPadLen (calc_same_padding_for_stride_one 1 b.mid_kernels_size) len

/-- The padding applied before `conv3`, which depends on the stride and, for
stride 2, on the parity of the current length. -/
def BasicBlock1dWithNorm.lastPaddedLen (b : BasicBlock1dWithNorm) (len : Nat) :
    Nat :=
  if b.stride = 2 then
    if b.last_kernel_size % 2 = 0 ∧ len % 2 ≠ 0 then
      symPadLen (calc_same_padding_for_stride_one 1 b.last_kernel_size) len
    else symPadLen ((b.last_kernel_size - 1) / 2) len
  else
    if b.last_kernel_size % 2 = 0 then
      symPadLen ((b.last_kernel_size - 1) / 2) (oneSidedPadLen len)
    else symPadLen (calc_same_padding_for_stride_one 1 b.last_kernel_size) len

/-- Whether `__init__` assigned a downsampling module to the skip path
(`None` exactly when stride is 1 and the channel counts agree). -/
def BasicBlock1dWithNorm.hasDownsample (b : BasicBlock1dWithNorm) : Bool :=
  !(b.stride == 1 && b.in_channels == b.out_channels)

/-- Length through the downsampling module: a 1×1 convolution with the block
stride, or a kernel-2 pooling with the block stride. -/
def BasicBlock1dWithNorm.downsampleLen (b : BasicBlock1dWithNorm) (len : Nat) :
    Option Nat :=
  match b.down_sample with
  | DownSampleKind.conv => convOutLen len 1 b.stride
  | _ => convOutLen len 2 b.stride

/-- The time-axis length through `BasicBlock1dWithNorm.forward`.  The
normalization layers, leaky ReLUs and dropout keep the length; `none` models
a raised error (a convolution input shorter than its kernel, or a residual
addition with incompatible shapes — `out += residual` broadcasts only a
length-1 residual). -/
def BasicBlock1dWithNorm.forwardLen (b : BasicBlock1dWithNorm) (len : Nat) :
    Option Nat :=
  match convOutLen (b.midPaddedLen len) b.mid_kernels_size 1 with
  | none => none
  | some l1 =>
    match convOutLen (b.midPaddedLen l1) b.mid_kernels_size 1 with
    | none => none
    | some l2 =>
      match convOutLen (b.lastPaddedLen l2) b.last_kernel_size b.stride with
      | none => none
      | some l3 =>
        if b.skips_active then
          if b.hasDownsample then
            let pooled := !(b.down_sample == DownSampleKind.conv)
            let rlen := if pooled && len % 2 != 0 then len + 2 else len
            match b.downsampleLen rlen with
            | none => none
            | some lr => if lr = l3 ∨ lr = 1 then some l3 else none
          else if len = l3 ∨ len = 1 then some l3 else none
        else some l3

/-- An empty cache directory. -/
def emptyFS : FS := ⟨[]⟩

/-- The from-scratch branch of `get_ml_pos_weights` (its value, apart from the
persistence): the column sums of the gathered one-hot vectors, the
zero-occurrence assertion, and the `(N - num_pos) / num_pos` ratios. -/
def mlPosWeightsFresh (idx_len : Nat) (items : List ItemTuple) :
    Except String (List Rat) :=
  let class_freqs := colSum (oneHotRows items)
  if class_freqs.contains 0 = true then
    Except.error "Each class should occur at least ones"
  else
    if class_freqs.isEmpty = true then
      Except.error
        "ValueError: Length of values (0) does not match length of index (1)"
    else Except.ok (posWeightVals idx_len class_freqs)

/-- The from-scratch branch of `get_class_frequency` (its value, apart from
the persistence). -/
def classFreqsFresh (inverse : Bool) (rows : List (List Nat)) :
    Except String (List Rat) :=
  let class_freqs := colSum rows
  if class_freqs.contains 0 = true then
    Except.error "Each class should occur at least ones"
  else Except.ok (if inverse then invFreqVals class_freqs else natsToRats class_freqs)

/-- Dataset of two one-class records, for the concrete caching instances. -/
def dsTwoRecords : ECGDataset := ⟨[⟨"a.pk", [0], [1]⟩, ⟨"b.pk", [0], [1]⟩], [0]⟩

/-- Dataset of four two-class records: class 0 is positive in one record,
class 1 in all four. -/
def dsFourRecords : ECGDataset :=
  ⟨[⟨"r1.pk", [0, 1], [1, 1]⟩, ⟨"r2.pk", [1], [0, 1]⟩,
    ⟨"r3.pk", [1], [0, 1]⟩, ⟨"r4.pk", [1], [0, 1]⟩], [0, 1]⟩

/-- Dataset of five three-class records whose primary labels have the
single-label counts `[2, 2, 1]`. -/
def dsFiveRecords : ECGDataset :=
  ⟨[⟨"s1.pk", [0], [1, 0, 0]⟩, ⟨"s2.pk", [0], [1, 0, 0]⟩,
    ⟨"s3.pk", [1], [0, 1, 0]⟩, ⟨"s4.pk", [1], [0, 1, 0]⟩,
    ⟨"s5.pk", [2], [0, 0, 1]⟩], [0, 1, 2]⟩

/-- A cache directory holding both statistics for `mode="train"` of
`dsTwoRecords` together with their record-name manifests. -/
def fsCached : FS := ⟨[
  ("pos_weights_ml_train_CinC_CPSC.p", FileContent.posWeightsDf [3]),
  ("Record_names_train_pos_weights_CinC_CPSC.txt",
    FileContent.manifest ["a.pk", "b.pk"]),
  ("class_freqs_ml_train_CinC_CPSC.p", FileContent.classFreqsDf [7] [8]),
  ("Record_names_train_class_freqs_CinC_CPSC.txt",
    FileContent.manifest ["a.pk", "b.pk"])]⟩

/-- A cache directory with one unrelated file. -/
def fsUnrelated : FS := ⟨[("unrelated.txt", FileContent.manifest [])]⟩

/-! # Theorems -/

/-! ## Generic facts about the embedded operations -/

theorem FS.lookup_empty (name : String) : emptyFS.lookup name = none := rfl

theorem vecAdd_nil (xs : List Nat) : vecAdd xs [] = xs := by
  cases xs <;> rfl

theorem vecAdd_getElem (xs ys : List Nat) (c a b : Nat)
    (hx : xs[c]? = some a) (hy : ys[c]? = some b) :
    (vecAdd xs ys)[c]? = some (a + b) := by
  induction xs generalizing ys c with
  | nil => simp at hx
  | cons x xs ih =>
    cases ys with
    | nil => simp at hy
    | cons y ys =>
      cases c with
      | zero =>
        simp only [List.getElem?_cons_zero, Option.some.injEq] at hx hy
        simp [vecAdd, hx, hy]
      | succ c =>
        simp only [List.getElem?_cons_succ] at hx hy
        simpa [vecAdd] using ih ys c hx hy

theorem vecAdd_length (xs ys : List Nat) (h : xs.length = ys.length) :
    (vecAdd xs ys).length = xs.length := by
  induction xs generalizing ys with
  | nil => cases ys with
    | nil => rfl
    | cons y ys => simp at h
  | cons x xs ih =>
    cases ys with
    | nil => simp at h
    | cons y ys =>
      simp only [List.length_cons] at h
      simp [vecAdd, ih ys (by omega)]

theorem colSum_cons (r : List Nat) (rs : List (List Nat)) :
    colSum (r :: rs) = vecAdd r (colSum rs) := rfl

theorem colSum_length (rows : List (List Nat)) (C : Nat) (hne : rows ≠ [])
    (hw : ∀ r ∈ rows, r.length = C) : (colSum rows).length = C := by
  induction rows with
  | nil => exact absurd rfl hne
  | cons r rs ih =>
    have hr : r.length = C := hw r (by simp)
    cases rs with
    | nil => rw [colSum_cons, colSum, List.foldr_nil, vecAdd_nil]; exact hr
    | cons r2 rs2 =>
      rw [colSum_cons]
      rw [vecAdd_length r _ (by
        rw [ih (by simp) (fun x hx => hw x (by simp [hx]))]; omega)]
      exact hr

theorem colSum_getElem_eq_positiveCount (rows : List (List Nat)) (C c : Nat)
    (hc : c < C) (hne : rows ≠ []) (hw : ∀ r ∈ rows, r.length = C)
    (h01 : ∀ r ∈ rows, ∀ x ∈ r, x = 0 ∨ x = 1) :
    (colSum rows)[c]? = some (positiveCount rows c) := by
  induction rows with
  | nil => exact absurd rfl hne
  | cons r rs ih =>
    have hrlen : r.length = C := hw r (by simp)
    have hrc : c < r.length := by omega
    obtain ⟨a, ha⟩ : ∃ a, r[c]? = some a :=
      ⟨r[c], List.getElem?_eq_getElem hrc⟩
    have ha01 : a = 0 ∨ a = 1 := h01 r (by simp) a (List.getElem?_mem ha)
    have hcount : positiveCount (r :: rs) c
        = positiveCount rs c + if a = 1 then 1 else 0 := by
      unfold positiveCount
      rw [List.countP_cons]
      congr 1
      simp [ha]
    cases rs with
    | nil =>
      rw [colSum_cons, colSum, List.foldr_nil, vecAdd_nil, ha, hcount]
      rcases ha01 with h | h <;> simp [h, positiveCount]
    | cons r2 rs2 =>
      have ihh := ih (by simp) (fun x hx => hw x (by simp [hx]))
        (fun x hx => h01 x (by simp [hx]))
      rw [colSum_cons, vecAdd_getElem r _ c a _ ha ihh, hcount]
      rcases ha01 with h | h <;> simp [h] <;> omega

theorem colSum_no_zero (rows : List (List Nat)) (C : Nat) (hne : rows ≠ [])
    (hw : ∀ r ∈ rows, r.length = C)
    (h01 : ∀ r ∈ rows, ∀ x ∈ r, x = 0 ∨ x = 1)
    (hpos : ∀ c, c < C → 0 < positiveCount rows c) :
    (colSum rows).contains 0 = false := by
  have hmem : (0 : Nat) ∉ colSum rows := by
    intro hm
    obtain ⟨i, hi, he⟩ := List.mem_iff_getElem.mp hm
    have hiC : i < C := by
      rw [colSum_length rows C hne hw] at hi; exact hi
    have hthis := colSum_getElem_eq_positiveCount rows C i hiC hne hw h01
    rw [List.getElem?_eq_getElem hi, he] at hthis
    have h0 := hpos i hiC
    have : 0 = positiveCount rows i := Option.some.inj hthis
    omega
  simp [List.contains, hmem]

theorem colSum_has_zero (rows : List (List Nat)) (C c : Nat) (hc : c < C)
    (hne : rows ≠ []) (hw : ∀ r ∈ rows, r.length = C)
    (h01 : ∀ r ∈ rows, ∀ x ∈ r, x = 0 ∨ x = 1)
    (hzero : positiveCount rows c = 0) :
    (colSum rows).contains 0 = true := by
  have := colSum_getElem_eq_positiveCount rows C c hc hne hw h01
  rw [hzero] at this
  have hmem : (0 : Nat) ∈ colSum rows := List.getElem?_mem this
  simp [List.contains, hmem]

theorem get_ml_pos_weights_cv_true (d : ECGDataset) (input_dir : String)
    (fs : FS) (idx_list : List Nat) (mode : Option String) (suffix : String)
    (items : List ItemTuple) (hsuf : cacheSuffix input_dir = some suffix)
    (hitems : collectItems d idx_list = some items) :
    d.get_ml_pos_weights input_dir fs idx_list mode true =
      (mlPosWeightsFresh idx_list.length items, fs) := by
  unfold ECGDataset.get_ml_pos_weights mlPosWeightsFresh
  rw [hsuf]
  simp only [hitems]
  simp only [show (true = false) = False by simp, false_and, if_false, and_false]
  split
  · rfl
  · split <;> rfl

theorem get_class_frequency_cv_true (d : ECGDataset) (input_dir : String)
    (fs : FS) (idx_list : List Nat) (multi : Bool) (mode : Option String)
    (inverse : Bool) (suffix : String) (items : List ItemTuple)
    (rows : List (List Nat)) (hsuf : cacheSuffix input_dir = some suffix)
    (hitems : collectItems d idx_list = some items)
    (hrows : slRows multi items = some rows) :
    d.get_class_frequency input_dir fs idx_list multi mode inverse true =
      (classFreqsFresh inverse rows, fs) := by
  unfold ECGDataset.get_class_frequency classFreqsFresh
  rw [hsuf]
  simp only [hitems, hrows]
  simp only [show (true = false) = False by simp, false_and, if_false, and_false]
  split <;> rfl

theorem get_ml_pos_weights_no_cache (d : ECGDataset) (input_dir : String)
    (fs : FS) (idx_list : List Nat) (mode : Option String)
    (cross_valid_active : Bool) (suffix : String) (items : List ItemTuple)
    (hsuf : cacheSuffix input_dir = some suffix)
    (hfile : fs.lookup (posWeightsFileName (effectiveMode input_dir mode) suffix)
      = none)
    (hitems : collectItems d idx_list = some items) :
    (d.get_ml_pos_weights input_dir fs idx_list mode cross_valid_active).1 =
      mlPosWeightsFresh idx_list.length items := by
  unfold ECGDataset.get_ml_pos_weights mlPosWeightsFresh
  rw [hsuf]
  simp only [hfile, hitems, Option.isSome_none]
  simp only [show (false = true) = False by simp, and_false, if_false]
  split
  · rfl
  · split <;> rfl

theorem get_class_frequency_no_cache (d : ECGDataset) (input_dir : String)
    (fs : FS) (idx_list : List Nat) (multi : Bool) (mode : Option String)
    (inverse : Bool) (cross_valid_active : Bool) (suffix : String)
    (items : List ItemTuple) (rows : List (List Nat))
    (hsuf : cacheSuffix input_dir = some suffix)
    (hfile : fs.lookup
      (classFreqsFileName multi (effectiveMode input_dir mode) suffix) = none)
    (hitems : collectItems d idx_list = some items)
    (hrows : slRows multi items = some rows) :
    (d.get_class_frequency input_dir fs idx_list multi mode inverse
        cross_valid_active).1 = classFreqsFresh inverse rows := by
  unfold ECGDataset.get_class_frequency classFreqsFresh
  rw [hsuf]
  simp only [hfile, hitems, hrows, Option.isSome_none]
  simp only [show (false = true) = False by simp, and_false, if_false]
  split <;> rfl

/-- C2 (amended): with cross-validation inactive and both the cached
statistic and its record-name manifest present, each statistic call first
compares the record names of the current `idx_list` with the manifest as
sorted lists (multiset equality): equal sorted lists load and return the
cached statistic with no recomputation and no change to the cache directory;
unequal sorted lists fail with the fatal assertion
`"Data Split Error! Check this again!"`. -/
theorem cached_statistic_loaded_on_sorted_match (d : ECGDataset)
    (input_dir : String) (fs : FS) (idx_list : List Nat) (mode : Option String)
    (ml : Bool) (suffix : String) (items : List ItemTuple) (w cf icf : List Rat)
    (lines1 lines2 : List String)
    (hsuf : cacheSuffix input_dir = some suffix)
    (hitems : collectItems d idx_list = some items)
    (hwfile : fs.lookup (posWeightsFileName (effectiveMode input_dir mode) suffix)
      = some (FileContent.posWeightsDf w))
    (hman1 : fs.lookup (manifestFileName (effectiveMode input_dir mode)
      ("pos_weights_" ++ suffix)) = some (FileContent.manifest lines1))
    (hcfile : fs.lookup
        (classFreqsFileName ml (effectiveMode input_dir mode) suffix)
      = some (FileContent.classFreqsDf cf icf))
    (hman2 : fs.lookup (manifestFileName (effectiveMode input_dir mode)
      ("class_freqs_" ++ suffix)) = some (FileContent.manifest lines2)) :
    (sortStrings (itemNames items) = sortStrings lines1 →
      d.get_ml_pos_weights input_dir fs idx_list mode false
        = (Except.ok w, fs)) ∧
    (sortStrings (itemNames items) ≠ sortStrings lines1 →
      d.get_ml_pos_weights input_dir fs idx_list mode false
        = (Except.error "Data Split Error! Check this again!", fs)) ∧
    (∀ inverse, sortStrings (itemNames items) = sortStrings lines2 →
      d.get_class_frequency input_dir fs idx_list ml mode inverse false
        = (Except.ok (if inverse then icf else cf), fs)) ∧
    (∀ inverse, sortStrings (itemNames items) ≠ sortStrings lines2 →
      d.get_class_frequency input_dir fs idx_list ml mode inverse false
        = (Except.error "Data Split Error! Check this again!", fs)) := by
  refine ⟨?_, ?_, ?_, ?_⟩
  · intro hmatch
    unfold ECGDataset.get_ml_pos_weights
    rw [hsuf]
    simp only [hwfile, Option.isSome_some, ECGDataset.consistencyCheckDataSplit,
      hman1, hitems]
    simp [hmatch]
  · intro hmis
    unfold ECGDataset.get_ml_pos_weights
    rw [hsuf]
    simp only [hwfile, Option.isSome_some, ECGDataset.consistencyCheckDataSplit,
      hman1, hitems]
    simp [hmis]
  · intro inverse hmatch
    unfold ECGDataset.get_class_frequency
    rw [hsuf]
    simp only [hcfile, Option.isSome_some, ECGDataset.consistencyCheckDataSplit,
      hman2, hitems]
    simp [hmatch]
  · intro inverse hmis
    unfold ECGDataset.get_class_frequency
    rw [hsuf]
    simp only [hcfile, Option.isSome_some, ECGDataset.consistencyCheckDataSplit,
      hman2, hitems]
    simp [hmis]

/-- C3: with `cross_valid_active=True` both statistics are computed from
scratch over the given index list — for an arbitrary cache-directory state
the result does not depend on the directory and the directory is returned
unchanged, so no cache file or manifest is read or written; with every class
occurring at least once the calls succeed with the values determined by the
index list alone. -/
theorem cross_valid_bypasses_cache (d : ECGDataset) (input_dir : String)
    (fs : FS) (idx_list : List Nat) (mode : Option String)
    (multi inverse : Bool) (suffix : String) (items : List ItemTuple)
    (rows : List (List Nat))
    (hsuf : cacheSuffix input_dir = some suffix)
    (hitems : collectItems d idx_list = some items)
    (hrows : slRows multi items = some rows)
    (hne1 : colSum (oneHotRows items) ≠ [])
    (hnz1 : (colSum (oneHotRows items)).contains 0 = false)
    (hnz2 : (colSum rows).contains 0 = false) :
    d.get_ml_pos_weights input_dir fs idx_list mode true =
      (Except.ok (posWeightVals idx_list.length (colSum (oneHotRows items))),
        fs) ∧
    d.get_class_frequency input_dir fs idx_list multi mode inverse true =
      (Except.ok (if inverse then invFreqVals (colSum rows)
        else natsToRats (colSum rows)), fs) := by
  have hm1 : (0 : Nat) ∉ colSum (oneHotRows items) := by
    simpa [List.contains] using hnz1
  have hm2 : (0 : Nat) ∉ colSum rows := by
    simpa [List.contains] using hnz2
  have hie : (colSum (oneHotRows items)).isEmpty = false := by
    cases hcs : colSum (oneHotRows items) with
    | nil => exact absurd hcs hne1
    | cons a l => rfl
  constructor
  · rw [get_ml_pos_weights_cv_true d input_dir fs idx_list mode suffix items
      hsuf hitems]
    unfold mlPosWeightsFresh
    simp [hnz1, hm1, hie]
  · rw [get_class_frequency_cv_true d input_dir fs idx_list multi mode inverse
      suffix items rows hsuf hitems hrows]
    unfold classFreqsFresh
    simp [hnz2, hm2]

/-- C3 witness: two cross-validation calls on the four-record dataset with
different index lists, in the presence of a (stale) cache file, both succeed
with the statistics of their own index list and leave the cache untouched. -/
theorem cross_valid_bypasses_cache_witness :
    ECGDataset.get_ml_pos_weights dsFourRecords "data/CinC_CPSC/train" fsCached
        [0, 1] (some "train") true =
      (Except.ok (posWeightVals 2 (colSum (oneHotRows
        [⟨0, [1, 1], "r1.pk"⟩, ⟨1, [0, 1], "r2.pk"⟩]))), fsCached) ∧
    ECGDataset.get_ml_pos_weights dsFourRecords "data/CinC_CPSC/train" fsCached
        [0, 1, 2] (some "train") true =
      (Except.ok (posWeightVals 3 (colSum (oneHotRows
        [⟨0, [1, 1], "r1.pk"⟩, ⟨1, [0, 1], "r2.pk"⟩, ⟨1, [0, 1], "r3.pk"⟩]))),
        fsCached) := by
  constructor
  · exact (cross_valid_bypasses_cache dsFourRecords "data/CinC_CPSC/train"
      fsCached [0, 1] (some "train") true false "CinC_CPSC"
      [⟨0, [1, 1], "r1.pk"⟩, ⟨1, [0, 1], "r2.pk"⟩]
      [[1, 1], [0, 1]]
      (by decide) (by decide) (by decide) (by decide) (by decide)
      (by decide)).1
  · exact (cross_valid_bypasses_cache dsFourRecords "data/CinC_CPSC/train"
      fsCached [0, 1, 2] (some "train") true false "CinC_CPSC"
      [⟨0, [1, 1], "r1.pk"⟩, ⟨1, [0, 1], "r2.pk"⟩, ⟨1, [0, 1], "r3.pk"⟩]
      [[1, 1], [0, 1], [0, 1]]
      (by decide) (by decide) (by decide) (by decide) (by decide)
      (by decide)).1

/-- C10: with `mode=None` neither statistic call ever writes a cache file or
a manifest (the cache directory is returned unchanged for every state and
every cross-validation flag), and — as no call with `mode=None` creates the
`None`-keyed cache file — whenever that file is absent the statistic is
computed from scratch over the index list. -/
theorem mode_none_never_persists (d : ECGDataset) (input_dir : String)
    (fs : FS) (idx_list : List Nat) (ml inverse cv : Bool) :
    ((d.get_ml_pos_weights input_dir fs idx_list none cv).2 = fs ∧
     (d.get_class_frequency input_dir fs idx_list ml none inverse cv).2 = fs) ∧
    (∀ suffix items, cacheSuffix input_dir = some suffix →
      fs.lookup (posWeightsFileName none suffix) = none →
      collectItems d idx_list = some items →
      (d.get_ml_pos_weights input_dir fs idx_list none cv).1 =
        mlPosWeightsFresh idx_list.length items) ∧
    (∀ suffix items rows, cacheSuffix input_dir = some suffix →
      fs.lookup (classFreqsFileName ml none suffix) = none →
      collectItems d idx_list = some items →
      slRows ml items = some rows →
      (d.get_class_frequency input_dir fs idx_list ml none inverse cv).1 =
        classFreqsFresh inverse rows) := by
  have hem : effectiveMode input_dir none = none := by
    simp [effectiveMode]
  refine ⟨⟨?_, ?_⟩, ?_, ?_⟩
  · unfold ECGDataset.get_ml_pos_weights
    simp only [hem, Option.isSome_none, show (false = true) = False by simp,
      false_and, and_false, if_false]
    cases hs : cacheSuffix input_dir with
    | none => rfl
    | some suffix =>
      simp only
      split
      · split
        · rfl
        · split <;> rfl
      · split
        · rfl
        · split
          · rfl
          · split <;> rfl
  · unfold ECGDataset.get_class_frequency
    simp only [hem, Option.isSome_none, show (false = true) = False by simp,
      false_and, and_false, if_false]
    cases hs : cacheSuffix input_dir with
    | none => rfl
    | some suffix =>
      simp only
      split
      · split
        · rfl
        · split <;> rfl
      · split
        · rfl
        · split
          · rfl
          · split <;> rfl
  · intro suffix items hsuf hfile hitems
    refine get_ml_pos_weights_no_cache d input_dir fs idx_list none cv suffix
      items hsuf ?_ hitems
    rw [hem]
    exact hfile
  · intro suffix items rows hsuf hfile hitems hrows
    refine get_class_frequency_no_cache d input_dir fs idx_list ml none
      inverse cv suffix items rows hsuf ?_ hitems hrows
    rw [hem]
    exact hfile

/-- C10 witness: a concrete `mode=None` call without cross-validation leaves
a nonempty cache directory unchanged and returns the freshly computed
statistic. -/
theorem mode_none_never_persists_witness :
    (ECGDataset.get_ml_pos_weights dsTwoRecords "data/CinC_CPSC/train"
        fsUnrelated [0] none false).2 = fsUnrelated ∧
    (ECGDataset.get_ml_pos_weights dsTwoRecords "data/CinC_CPSC/train"
        fsUnrelated [0] none false).1 =
      mlPosWeightsFresh 1 [⟨0, [1], "a.pk"⟩] ∧
    (ECGDataset.get_class_frequency dsTwoRecords "data/CinC_CPSC/train"
        fsUnrelated [0] false none false false).2 = fsUnrelated := by
  have h := mode_none_never_persists dsTwoRecords "data/CinC_CPSC/train"
    fsUnrelated [0] false false false
  exact ⟨h.1.1, h.2.1 "CinC_CPSC" [⟨0, [1], "a.pk"⟩] (by decide) (by decide)
    (by decide), h.1.2⟩

/-- C2 witness: with matching manifests both cached statistics are returned
as stored, and the cache directory is unchanged. -/
theorem cached_statistic_loaded_on_sorted_match_witness :
    ECGDataset.get_ml_pos_weights dsTwoRecords "data/CinC_CPSC/train" fsCached
        [0, 1] (some "train") false = (Except.ok [3], fsCached) ∧
    ECGDataset.get_class_frequency dsTwoRecords "data/CinC_CPSC/train" fsCached
        [0, 1] true (some "train") false false = (Except.ok [7], fsCached) := by
  have h := cached_statistic_loaded_on_sorted_match dsTwoRecords
    "data/CinC_CPSC/train" fsCached [0, 1] (some "train") true "CinC_CPSC"
    [⟨0, [1], "a.pk"⟩, ⟨0, [1], "b.pk"⟩] [3] [7] [8] ["a.pk", "b.pk"]
    ["a.pk", "b.pk"] (by decide) (by decide) (by decide) (by decide)
    (by decide) (by decide)
  exact ⟨h.1 (by decide), by simpa using h.2.2.1 false (by decide)⟩

/-- C2 counterexample: the record names derived from the index list
`[0, 0, 1]` are `["a.pk", "a.pk", "b.pk"]`, which are set-equal (ignoring
order and multiplicity) to the manifest lines `["a.pk", "b.pk"]`; the claimed
set-equality check would accept and load the cache, but the call fails with
the Data Split Error because the sorted lists differ as multisets. -/
theorem consistency_check_rejects_set_equal_multiset :
    ECGDataset.get_ml_pos_weights dsTwoRecords "data/CinC_CPSC/train" fsCached
        [0, 0, 1] (some "train") false
      = (Except.error "Data Split Error! Check this again!", fsCached) ∧
    Option.map itemNames (collectItems dsTwoRecords [0, 0, 1])
      = some ["a.pk", "a.pk", "b.pk"] ∧
    List.toFinset ["a.pk", "a.pk", "b.pk"] = List.toFinset ["a.pk", "b.pk"] := by
  refine ⟨?_, by decide, by decide⟩
  rfl

/-- C1 (amended): over an index list whose gathered one-hot rows all have
width `C` (at least one class) with 0/1 entries, `get_ml_pos_weights`
(computed fresh, no cache present) returns, for each class `c < C`, the
value `(N - positive_count) / positive_count` with `N = len(idx_list)` and
`positive_count` the number of gathered records whose one-hot vector has
class `c` set, provided the list is nonempty and every class occurs at least
once; for a nonempty list with a zero-occurrence class the call fails with
the assertion `"Each class should occur at least ones"`; for the empty index
list, however, the zero-occurrence assertion passes vacuously (the pandas
frame has no rows) and the call instead fails with the `ValueError` that
`df.apply` raises while building `num_neg_samples` on the empty frame. -/
theorem get_ml_pos_weights_fresh_spec (d : ECGDataset) (input_dir : String)
    (idx_list : List Nat) (mode : Option String) (cv : Bool) (C : Nat)
    (suffix : String) (items : List ItemTuple)
    (hsuf : cacheSuffix input_dir = some suffix)
    (hitems : collectItems d idx_list = some items)
    (hw : ∀ r ∈ oneHotRows items, r.length = C)
    (h01 : ∀ r ∈ oneHotRows items, ∀ x ∈ r, x = 0 ∨ x = 1) :
    (items ≠ [] → 0 < C →
      (∀ c, c < C → 0 < positiveCount (oneHotRows items) c) →
      ∃ ws : List Rat,
        (d.get_ml_pos_weights input_dir emptyFS idx_list mode cv).1
          = Except.ok ws ∧
        ws.length = C ∧
        ∀ c, c < C → ws[c]? = some
          (((idx_list.length : Rat)
              - (positiveCount (oneHotRows items) c : Rat))
            / (positiveCount (oneHotRows items) c : Rat))) ∧
    (items ≠ [] → (∃ c, c < C ∧ positiveCount (oneHotRows items) c = 0) →
      (d.get_ml_pos_weights input_dir emptyFS idx_list mode cv).1
        = Except.error "Each class should occur at least ones") ∧
    (idx_list = [] →
      (d.get_ml_pos_weights input_dir emptyFS idx_list mode cv).1
        = Except.error
          "ValueError: Length of values (0) does not match length of index (1)")
    := by
  have hred := get_ml_pos_weights_no_cache d input_dir emptyFS idx_list mode cv
    suffix items hsuf (FS.lookup_empty _) hitems
  refine ⟨?_, ?_, ?_⟩
  · intro hne hC hpos
    have hrne : oneHotRows items ≠ [] := fun h =>
      hne (List.map_eq_nil_iff.mp h)
    have hnz := colSum_no_zero (oneHotRows items) C hrne hw h01 hpos
    have hm : (0 : Nat) ∉ colSum (oneHotRows items) := by
      simpa [List.contains] using hnz
    have hfne : colSum (oneHotRows items) ≠ [] :=
      List.length_pos.mp (by rw [colSum_length _ C hrne hw]; omega)
    have hie : (colSum (oneHotRows items)).isEmpty = false := by
      cases hcs : colSum (oneHotRows items) with
      | nil => exact absurd hcs hfne
      | cons a l => rfl
    refine ⟨posWeightVals idx_list.length (colSum (oneHotRows items)),
      ?_, ?_, ?_⟩
    · rw [hred]
      unfold mlPosWeightsFresh
      simp [hnz, hm, hie]
    · unfold posWeightVals
      rw [List.length_map, colSum_length _ C hrne hw]
    · intro c hc
      unfold posWeightVals
      rw [List.getElem?_map,
        colSum_getElem_eq_positiveCount _ C c hc hrne hw h01]
      rfl
  · rintro hne ⟨c, hc, hzero⟩
    have hrne : oneHotRows items ≠ [] := fun h =>
      hne (List.map_eq_nil_iff.mp h)
    have hnz := colSum_has_zero (oneHotRows items) C c hc hrne hw h01 hzero
    have hm : (0 : Nat) ∈ colSum (oneHotRows items) := by
      simpa [List.contains] using hnz
    rw [hred]
    unfold mlPosWeightsFresh
    simp [hnz, hm]
  · intro hempty
    subst hempty
    have hit : ([] : List ItemTuple) = items := Option.some.inj hitems
    subst hit
    rw [hred]
    rfl

/-- C1 witness: on the four-record dataset with index list `[0, 1, 2, 3]`
(class 0 positive once, class 1 positive four times) the fresh computation
returns the per-class ratios, whose values are `(4-1)/1 = 3` and
`(4-4)/4 = 0`. -/
theorem get_ml_pos_weights_fresh_spec_witness :
    (∃ ws : List Rat,
      (ECGDataset.get_ml_pos_weights dsFourRecords "data/CinC_CPSC/train"
          emptyFS [0, 1, 2, 3] (some "train") false).1 = Except.ok ws ∧
      ws.length = 2 ∧
      ∀ c, c < 2 → ws[c]? = some
        (((([0, 1, 2, 3] : List Nat).length : Rat)
            - (positiveCount (oneHotRows
                [⟨0, [1, 1], "r1.pk"⟩, ⟨1, [0, 1], "r2.pk"⟩,
                 ⟨1, [0, 1], "r3.pk"⟩, ⟨1, [0, 1], "r4.pk"⟩]) c : Rat))
          / (positiveCount (oneHotRows
              [⟨0, [1, 1], "r1.pk"⟩, ⟨1, [0, 1], "r2.pk"⟩,
               ⟨1, [0, 1], "r3.pk"⟩, ⟨1, [0, 1], "r4.pk"⟩]) c : Rat))) ∧
    posWeightVals 4 [1, 4] = [3, 0] := by
  constructor
  · exact (get_ml_pos_weights_fresh_spec dsFourRecords "data/CinC_CPSC/train"
      [0, 1, 2, 3] (some "train") false 2 "CinC_CPSC"
      [⟨0, [1, 1], "r1.pk"⟩, ⟨1, [0, 1], "r2.pk"⟩,
       ⟨1, [0, 1], "r3.pk"⟩, ⟨1, [0, 1], "r4.pk"⟩]
      (by decide) (by decide) (by decide) (by decide)).1
      (by decide) (by decide) (by decide)
  · norm_num [posWeightVals]

/-- C1 counterexample: for the empty index list every class of the two-record
one-class dataset has zero positive occurrences, yet the call does not fail
with the zero-occurrence assertion: the assertion passes vacuously over the
empty pandas frame and the failure is the `ValueError` raised by `df.apply`
while building `num_neg_samples`. -/
theorem get_ml_pos_weights_empty_idx_value_error :
    (ECGDataset.get_ml_pos_weights dsTwoRecords "data/CinC_CPSC/train" emptyFS
        [] (some "train") false).1
      = Except.error
        "ValueError: Length of values (0) does not match length of index (1)" ∧
    (ECGDataset.get_ml_pos_weights dsTwoRecords "data/CinC_CPSC/train" emptyFS
        [] (some "train") false).1
      ≠ Except.error "Each class should occur at least ones" ∧
    dsTwoRecords.class_labels = [0] ∧
    positiveCount (oneHotRows []) 0 = 0 := by
  refine ⟨rfl, fun h => ?_, rfl, rfl⟩
  rw [show (ECGDataset.get_ml_pos_weights dsTwoRecords "data/CinC_CPSC/train"
      emptyFS [] (some "train") false).1
    = Except.error
      "ValueError: Length of values (0) does not match length of index (1)"
    from rfl] at h
  exact absurd (Except.error.inj h) (by decide)

/-- C4: over an index list whose summed rows (full one-hot vectors in
multi-label mode, one-hot vectors reduced to the primary label in
single-label mode) all have width `C` with 0/1 entries and every class
occurring at least once, `get_class_frequency` (computed fresh, no cache
present) returns the per-class occurrence counts, and
`get_inverse_class_frequency` returns, for each class, the total occurrence
count summed over all classes divided by that class's count. -/
theorem class_frequency_spec (d : ECGDataset) (input_dir : String)
    (idx_list : List Nat) (multi : Bool) (mode : Option String) (cv : Bool)
    (C : Nat) (suffix : String) (items : List ItemTuple)
    (rows : List (List Nat))
    (hsuf : cacheSuffix input_dir = some suffix)
    (hitems : collectItems d idx_list = some items)
    (hrows : slRows multi items = some rows)
    (hne : rows ≠ [])
    (hw : ∀ r ∈ rows, r.length = C)
    (h01 : ∀ r ∈ rows, ∀ x ∈ r, x = 0 ∨ x = 1)
    (hpos : ∀ c, c < C → 0 < positiveCount rows c) :
    (∃ cf : List Rat,
      (d.get_class_frequency input_dir emptyFS idx_list multi mode false cv).1
        = Except.ok cf ∧
      cf.length = C ∧
      ∀ c, c < C → cf[c]? = some ((positiveCount rows c : Rat))) ∧
    (∃ icf : List Rat,
      (d.get_inverse_class_frequency input_dir emptyFS idx_list multi mode
          cv).1 = Except.ok icf ∧
      icf.length = C ∧
      ∀ c, c < C → icf[c]? = some
        (((listSum (colSum rows) : Nat) : Rat)
          / (positiveCount rows c : Rat))) := by
  have hnz := colSum_no_zero rows C hne hw h01 hpos
  have hm : (0 : Nat) ∉ colSum rows := by
    simpa [List.contains] using hnz
  constructor
  · have hred := get_class_frequency_no_cache d input_dir emptyFS idx_list
      multi mode false cv suffix items rows hsuf (FS.lookup_empty _) hitems
      hrows
    refine ⟨natsToRats (colSum rows), ?_, ?_, ?_⟩
    · rw [hred]
      unfold classFreqsFresh
      simp [hnz, hm]
    · unfold natsToRats
      rw [List.length_map, colSum_length _ C hne hw]
    · intro c hc
      unfold natsToRats
      rw [List.getElem?_map, colSum_getElem_eq_positiveCount _ C c hc hne hw h01]
      rfl
  · have hred := get_class_frequency_no_cache d input_dir emptyFS idx_list
      multi mode true cv suffix items rows hsuf (FS.lookup_empty _) hitems
      hrows
    refine ⟨invFreqVals (colSum rows), ?_, ?_, ?_⟩
    · unfold ECGDataset.get_inverse_class_frequency
      rw [hred]
      unfold classFreqsFresh
      simp [hnz, hm]
    · unfold invFreqVals
      rw [List.length_map, colSum_length _ C hne hw]
    · intro c hc
      unfold invFreqVals
      rw [List.getElem?_map, colSum_getElem_eq_positiveCount _ C c hc hne hw h01]
      rfl

/-- C4 witness: the synthetic 3-class 5-record single-label dataset with
primary-label counts `[2, 2, 1]`: the class frequencies are `[2, 2, 1]` and
the inverse frequencies are `[5/2, 5/2, 5]`. -/
theorem class_frequency_spec_witness :
    ((∃ cf : List Rat,
      (ECGDataset.get_class_frequency dsFiveRecords "data/CinC_CPSC/train"
          emptyFS [0, 1, 2, 3, 4] false (some "train") false false).1
        = Except.ok cf ∧
      cf.length = 3 ∧
      ∀ c, c < 3 → cf[c]? = some ((positiveCount
        [[1, 0, 0], [1, 0, 0], [0, 1, 0], [0, 1, 0], [0, 0, 1]] c : Rat))) ∧
    (∃ icf : List Rat,
      (ECGDataset.get_inverse_class_frequency dsFiveRecords
          "data/CinC_CPSC/train" emptyFS [0, 1, 2, 3, 4] false (some "train")
          false).1 = Except.ok icf ∧
      icf.length = 3 ∧
      ∀ c, c < 3 → icf[c]? = some
        (((listSum (colSum [[1, 0, 0], [1, 0, 0], [0, 1, 0], [0, 1, 0],
            [0, 0, 1]]) : Nat) : Rat)
          / (positiveCount [[1, 0, 0], [1, 0, 0], [0, 1, 0], [0, 1, 0],
              [0, 0, 1]] c : Rat)))) ∧
    natsToRats (colSum [[1, 0, 0], [1, 0, 0], [0, 1, 0], [0, 1, 0],
      [0, 0, 1]]) = [2, 2, 1] ∧
    invFreqVals (colSum [[1, 0, 0], [1, 0, 0], [0, 1, 0], [0, 1, 0],
      [0, 0, 1]]) = [5 / 2, 5 / 2, 5] := by
  refine ⟨?_, ?_, ?_⟩
  · exact class_frequency_spec dsFiveRecords "data/CinC_CPSC/train"
      [0, 1, 2, 3, 4] false (some "train") false 3 "CinC_CPSC"
      [⟨0, [1, 0, 0], "s1.pk"⟩, ⟨0, [1, 0, 0], "s2.pk"⟩,
       ⟨1, [0, 1, 0], "s3.pk"⟩, ⟨1, [0, 1, 0], "s4.pk"⟩,
       ⟨2, [0, 0, 1], "s5.pk"⟩]
      [[1, 0, 0], [1, 0, 0], [0, 1, 0], [0, 1, 0], [0, 0, 1]]
      (by decide) (by decide) (by decide) (by decide) (by decide) (by decide)
      (by decide)
  · have h : colSum [[1, 0, 0], [1, 0, 0], [0, 1, 0], [0, 1, 0], [0, 0, 1]]
        = [2, 2, 1] := by decide
    rw [h]
    norm_num [natsToRats]
  · have h : colSum [[1, 0, 0], [1, 0, 0], [0, 1, 0], [0, 1, 0], [0, 0, 1]]
        = [2, 2, 1] := by decide
    rw [h]
    norm_num [invFreqVals, listSum]

/-- C5 (amended): the constructed dataset retains exactly the files of the
directory listing whose name contains the substring `".pk"` (a superset of
the files with the `.pk` suffix), in sorted filename order, and the dataset
length equals the count of such files. -/
theorem init_records_sorted_substring_filter (listing : List String) :
    (initRecords listing).length
      = listing.countP (fun f => strContains f ".pk") ∧
    List.Sorted strLeProp (initRecords listing) ∧
    ∀ f, f ∈ initRecords listing
      ↔ f ∈ listing ∧ strContains f ".pk" = true := by
  refine ⟨?_, ?_, ?_⟩
  · unfold initRecords
    rw [(List.countP_eq_length_filter _ _).symm]
    exact (List.perm_insertionSort strLeProp listing).countP_eq _
  · exact (List.sorted_insertionSort strLeProp listing).filter _
  · intro f
    unfold initRecords
    rw [List.mem_filter]
    constructor
    · rintro ⟨hmem, hpk⟩
      exact ⟨(List.perm_insertionSort strLeProp listing).mem_iff.mp hmem, hpk⟩
    · rintro ⟨hmem, hpk⟩
      exact ⟨(List.perm_insertionSort strLeProp listing).mem_iff.mpr hmem, hpk⟩

/-- C5 counterexample: a directory whose only file is `"data.pk.old"` — the
name contains `".pk"` but does not have the pickle suffix; the constructor
retains it, so the retained files are not exactly those with the recognized
pickle suffix. -/
theorem init_records_keeps_non_suffix_file :
    initRecords ["data.pk.old"] = ["data.pk.old"] ∧
    strEndsWith "data.pk.old" ".pk" = false ∧
    ([("data.pk.old" : String)].countP (fun f => strEndsWith f ".pk")) = 0 := by
  exact ⟨by decide, by decide, by decide⟩

/-- C9 (amended): `fullprint` restores the previous global numpy printing
configuration when the printing succeeds; when the printing raises, the
exception propagates before the restoring call, so the configuration is left
with `threshold` set to infinite rather than restored. -/
theorem fullprint_restore_behavior (opts : NpPrintOptions) :
    (fullprint true opts).2 = opts ∧
    (fullprint true opts).1 = Except.ok () ∧
    (fullprint false opts).2 = { opts with threshold := NpThreshold.inf } := by
  exact ⟨rfl, rfl, rfl⟩

/-- C9 counterexample: when printing raises, the configuration observed after
the call differs from the configuration in effect before the call. -/
theorem fullprint_not_restored_on_error :
    (fullprint false ⟨NpThreshold.finite 1000⟩).2 ≠ ⟨NpThreshold.finite 1000⟩ := by
  decide

/-- C7: for every path containing `"PTB_XL"` that encodes a taxonomy tag (the
first `_`-token of its third `/`-segment), `extract_target_names_for_PTB_XL`
returns the exact ordered label list of that tag — `all` (71), `diag` (44),
`form` (19), `rhythm` (12), `subdiag` (23), `superdiag` (5) — and raises the
invalid-input `ValueError` for any other tag; for a path without `"PTB_XL"`
it fails with the assertion. -/
theorem extract_target_names_spec (data_dir seg : String)
    (hseg : (splitStr '/' data_dir)[2]? = some seg) :
    (strContains data_dir "PTB_XL" = false →
      extract_target_names_for_PTB_XL data_dir =
        Except.error "AssertionError: This method is intended for PTB-XL only!") ∧
    (strContains data_dir "PTB_XL" = true →
      ((splitStr '_' seg).headD "" = "all" →
        extract_target_names_for_PTB_XL data_dir = Except.ok ptbxlLabelsAll ∧
        ptbxlLabelsAll.length = 71) ∧
      ((splitStr '_' seg).headD "" = "diag" →
        extract_target_names_for_PTB_XL data_dir = Except.ok ptbxlLabelsDiag ∧
        ptbxlLabelsDiag.length = 44) ∧
      ((splitStr '_' seg).headD "" = "form" →
        extract_target_names_for_PTB_XL data_dir = Except.ok ptbxlLabelsForm ∧
        ptbxlLabelsForm.length = 19) ∧
      ((splitStr '_' seg).headD "" = "rhythm" →
        extract_target_names_for_PTB_XL data_dir = Except.ok ptbxlLabelsRhythm ∧
        ptbxlLabelsRhythm.length = 12) ∧
      ((splitStr '_' seg).headD "" = "subdiag" →
        extract_target_names_for_PTB_XL data_dir = Except.ok ptbxlLabelsSubdiag ∧
        ptbxlLabelsSubdiag.length = 23) ∧
      ((splitStr '_' seg).headD "" = "superdiag" →
        extract_target_names_for_PTB_XL data_dir
          = Except.ok ptbxlLabelsSuperdiag ∧
        ptbxlLabelsSuperdiag.length = 5) ∧
      ((splitStr '_' seg).headD ""
          ∉ ["all", "diag", "form", "rhythm", "subdiag", "superdiag"] →
        extract_target_names_for_PTB_XL data_dir =
          Except.error "ValueError: Data Dir does not match any known Ctype")) := by
  constructor
  · intro h
    unfold extract_target_names_for_PTB_XL
    simp [h]
  · intro h
    refine ⟨?_, ?_, ?_, ?_, ?_, ?_, ?_⟩ <;> intro ht
    · refine ⟨?_, by decide⟩
      rw [List.headD_eq_head?_getD] at ht
      unfold extract_target_names_for_PTB_XL
      simp [h, hseg, ht]
    · refine ⟨?_, by decide⟩
      rw [List.headD_eq_head?_getD] at ht
      unfold extract_target_names_for_PTB_XL
      simp [h, hseg, ht]
    · refine ⟨?_, by decide⟩
      rw [List.headD_eq_head?_getD] at ht
      unfold extract_target_names_for_PTB_XL
      simp [h, hseg, ht]
    · refine ⟨?_, by decide⟩
      rw [List.headD_eq_head?_getD] at ht
      unfold extract_target_names_for_PTB_XL
      simp [h, hseg, ht]
    · refine ⟨?_, by decide⟩
      rw [List.headD_eq_head?_getD] at ht
      unfold extract_target_names_for_PTB_XL
      simp [h, hseg, ht]
    · refine ⟨?_, by decide⟩
      rw [List.headD_eq_head?_getD] at ht
      unfold extract_target_names_for_PTB_XL
      simp [h, hseg, ht]
    · simp only [List.mem_cons, not_or] at ht
      obtain ⟨h1, h2, h3, h4, h5, h6, -⟩ := ht
      rw [List.headD_eq_head?_getD] at h1 h2 h3 h4 h5 h6
      unfold extract_target_names_for_PTB_XL
      simp [h, hseg, h1, h2, h3, h4, h5, h6]

/-- C7 witness: the superdiag taxonomy path. -/
theorem extract_target_names_spec_witness :
    extract_target_names_for_PTB_XL "data/PTB_XL/superdiag_100"
      = Except.ok ptbxlLabelsSuperdiag ∧ ptbxlLabelsSuperdiag.length = 5 :=
  ((extract_target_names_spec "data/PTB_XL/superdiag_100" "superdiag_100"
    (by decide)).2 (by decide)).2.2.2.2.2.1 (by decide)

theorem repeatedLoader_getElem (l : List α) (hne : l ≠ []) :
    ∀ K n, n < K * l.length →
      (repeatedLoader l K)[n]? = l[n % l.length]? := by
  have hlen : 0 < l.length := List.length_pos.mpr hne
  intro K
  induction K with
  | zero => intro n h; omega
  | succ k ih =>
    intro n h
    by_cases hn : n < l.length
    · rw [repeatedLoader, List.getElem?_append, if_pos hn,
        Nat.mod_eq_of_lt hn]
    · push_neg at hn
      rw [repeatedLoader, List.getElem?_append, if_neg (by omega)]
      rw [ih (n - l.length) (by
        have : (k + 1) * l.length = k * l.length + l.length := by ring
        omega)]
      rw [Nat.mod_eq_sub_mod hn]

theorem infLoopItem_eq (l : List α) (hne : l ≠ []) (n : Nat) :
    infLoopItem l n = l[n % l.length]? := by
  have hlen : 0 < l.length := List.length_pos.mpr hne
  unfold infLoopItem
  refine repeatedLoader_getElem l hne (n + 1) n ?_
  calc n < n + 1 := Nat.lt_succ_self n
    _ ≤ (n + 1) * l.length := Nat.le_mul_of_pos_right (n + 1) hlen

theorem infLoopItem_isSome (l : List α) (hne : l ≠ []) (n : Nat) :
    (infLoopItem l n).isSome = true := by
  have hlen : 0 < l.length := List.length_pos.mpr hne
  rw [infLoopItem_eq l hne n,
    List.getElem?_eq_getElem (Nat.mod_lt n hlen)]
  rfl

theorem trainLoop_run (loader : Nat → Option α) (n : Nat)
    (htot : ∀ i, (loader i).isSome = true) :
    ∀ fuel idx, idx ≤ n → n + 1 - idx ≤ fuel →
      trainLoop loader n fuel idx = List.range' idx (n + 1 - idx) := by
  intro fuel
  induction fuel with
  | zero => intro idx h1 h2; omega
  | succ f ih =>
    intro idx h1 h2
    obtain ⟨a, ha⟩ := Option.isSome_iff_exists.mp (htot idx)
    simp only [trainLoop, ha]
    by_cases he : idx = n
    · rw [if_pos he, show n + 1 - idx = 1 by omega, List.range'_one]
    · have hlt : idx < n := Nat.lt_of_le_of_ne h1 he
      have ha2 : n + 1 - (idx + 1) ≤ f := by omega
      rw [if_neg he, ih (idx + 1) hlt ha2,
        show n + 1 - idx = (n - idx) + 1 by omega, List.range'_succ,
        show n - idx = n + 1 - (idx + 1) by omega]

/-- C6 (amended): with `len_epoch` supplied, the trainer wraps the loader in
the unbounded repeating sequence `inf_loop` — the stream that restarts the
finite loader indefinitely, whose item at position `i` is the loader item at
`i` modulo the loader length — and the training phase of an epoch processes
the batches with indices `0, 1, ..., len_epoch`: exactly `len_epoch + 1`
batches (one more than the configured count), because the
`batch_idx == len_epoch` break is only checked after the batch at index
`len_epoch` has been fully processed. -/
theorem train_epoch_processes_len_epoch_plus_one (l : List α)
    (len_epoch fuel : Nat) (hne : l ≠ []) (hfuel : len_epoch + 1 ≤ fuel) :
    (∀ i, infLoopItem l i = l[i % l.length]?) ∧
    trainLoop (infLoopItem l) len_epoch fuel 0 = List.range (len_epoch + 1) ∧
    (trainLoop (infLoopItem l) len_epoch fuel 0).length = len_epoch + 1 := by
  have hrun := trainLoop_run (infLoopItem l) len_epoch
    (infLoopItem_isSome l hne) fuel 0 (by omega) (by omega)
  refine ⟨infLoopItem_eq l hne, ?_, ?_⟩
  · rw [hrun]
    simp [List.range_eq_range']
  · rw [hrun]
    simp

/-- C6 witness: a one-batch loader repeated without bound; with
`len_epoch = 4` the epoch processes the five batch indices `0..4`. -/
theorem train_epoch_processes_len_epoch_plus_one_witness :
    trainLoop (infLoopItem [true]) 4 5 0 = List.range 5 ∧
    (trainLoop (infLoopItem [true]) 4 5 0).length = 5 ∧
    infLoopItem [true] 3 = some true := by
  have h := train_epoch_processes_len_epoch_plus_one [true] 4 5 (by decide)
    (by decide)
  exact ⟨h.2.1, h.2.2, by decide⟩

/-- C6 counterexample: with `len_epoch = 2` the training phase of an epoch
processes three batches, not two — the loop body (forward, backward,
optimizer step, metric updates) runs for batch index 2 before the break. -/
theorem train_epoch_not_exactly_len_epoch_batches :
    trainLoop (infLoopItem [true]) 2 3 0 = [0, 1, 2] ∧
    (trainLoop (infLoopItem [true]) 2 3 0).length ≠ 2 := by
  exact ⟨by decide, by decide⟩

theorem mid_conv_preserves (b : BasicBlock1dWithNorm) (len : Nat)
    (hk : 1 ≤ b.mid_kernels_size) (hlen : 1 ≤ len) :
    convOutLen (b.midPaddedLen len) b.mid_kernels_size 1 = some len := by
  unfold BasicBlock1dWithNorm.midPaddedLen convOutLen symPadLen oneSidedPadLen
    calc_same_padding_for_stride_one
  by_cases h : b.mid_kernels_size % 2 = 0
  · rw [if_pos h, if_pos (by omega)]
    congr 1
    omega
  · rw [if_neg h, if_pos (by omega)]
    congr 1
    omega

theorem last_conv_preserves_stride_one (b : BasicBlock1dWithNorm) (len : Nat)
    (hst : b.stride = 1) (hk : 1 ≤ b.last_kernel_size) (hlen : 1 ≤ len) :
    convOutLen (b.lastPaddedLen len) b.last_kernel_size b.stride = some len := by
  unfold BasicBlock1dWithNorm.lastPaddedLen convOutLen symPadLen oneSidedPadLen
    calc_same_padding_for_stride_one
  rw [hst]
  simp only [show (1 = 2) = False by simp, if_false]
  by_cases h : b.last_kernel_size % 2 = 0
  · rw [if_pos h, if_pos (by omega)]
    congr 1
    omega
  · rw [if_neg h, if_pos (by omega)]
    congr 1
    omega

/-- C8: for the residual block with stride 1 and equal input and output
channel counts, any mid and last kernel sizes (odd or even, at least 1) and
any input length at least 1, the output sequence length equals the input
sequence length exactly: each convolution is preceded by padding of
`(kernel - 1) // 2` on both sides plus one extra trailing zero for an even
kernel, and `kernel // 2` on both sides for an odd kernel, so every
convolution preserves the length and the residual addition is
shape-compatible. -/
theorem basic_block_stride_one_preserves_length (b : BasicBlock1dWithNorm)
    (len : Nat) (hstride : b.stride = 1)
    (hch : b.in_channels = b.out_channels)
    (hmid : 1 ≤ b.mid_kernels_size) (hlast : 1 ≤ b.last_kernel_size)
    (hlen : 1 ≤ len) :
    b.forwardLen len = some len := by
  unfold BasicBlock1dWithNorm.forwardLen
  rw [mid_conv_preserves b len hmid hlen]
  simp only
  rw [mid_conv_preserves b len hmid hlen]
  simp only
  rw [last_conv_preserves_stride_one b len hstride hlast hlen]
  simp only
  have hd : b.hasDownsample = false := by
    unfold BasicBlock1dWithNorm.hasDownsample
    simp [hstride, hch]
  cases hsk : b.skips_active
  · simp
  · simp [hd]

/-- C8 witness: a block with an even mid kernel (24) and an odd last kernel
(47) at stride 1 with 12 input and output channels preserves the length 1125. -/
theorem basic_block_stride_one_preserves_length_witness :
    BasicBlock1dWithNorm.forwardLen
      ⟨12, 12, 24, 47, 1, DownSampleKind.conv, true⟩ 1125 = some 1125 :=
  basic_block_stride_one_preserves_length
    ⟨12, 12, 24, 47, 1, DownSampleKind.conv, true⟩ 1125 (by decide) (by decide)
    (by decide) (by decide) (by decide)
